import Mathlib

/-!
# MyDuka backend — shallow embedding of the role-scoped authorization and
# inventory/transaction consistency core

Each definition below ports one piece of the Python source (Flask resource
handlers, permission decorators, validators) into executable Lean.  The
account row classes (`Merchant`, `Admin`, `Clerk`) live in the repository's
`app/models/user_models.py`, which is not present in the source tree; those
structures are modelled from the spec's data-model table, while every
behavioural definition is ported from the handler code that is present.

Conventions of the embedding:
* integer ids, quantities and prices are `Nat`/`Int` (prices are stored as
  SQL floats, but every claim only multiplies and compares them, which is
  exact, so `Int` is a faithful carrier);
* a nullable foreign key is `Option Nat`;
* the database is a record of lists of rows in insertion order, plus the
  autoincrement counters and a logical clock standing for `datetime.utcnow`;
* each handler returns the JSON-level response (status code and message)
  together with the post-state; a failure that commits nothing returns the
  state unchanged, which is how an uncommitted SQLAlchemy session is
  observed by later requests.
-/

namespace MyDuka

/-- HTTP-level reply of a handler: status code plus the `message` field of
the JSON body, exactly the pairs the Python code returns. -/
structure Resp where
  status : Nat
  message : String
deriving Repr, DecidableEq

/-- Modelled from the spec: the Merchant account row (`user_models.py` is
missing from the source tree; fields follow the spec's data-model table).
The stored `password` stands for the salted hash; `check_password` is
modelled as comparison with it. -/
structure Merchant where
  id : Nat
  username : String
  email : String
  password : String
  is_active : Bool
  is_superuser : Bool
deriving Repr, DecidableEq

/-- Modelled from the spec: the Admin account row (`user_models.py` is
missing from the source tree; fields follow the spec's data-model table). -/
structure Admin where
  id : Nat
  username : String
  email : String
  password : String
  is_active : Bool
  merchant_id : Nat
  store_id : Option Nat
deriving Repr, DecidableEq

/-- Modelled from the spec: the Clerk account row (`user_models.py` is
missing from the source tree; fields follow the spec's data-model table). -/
structure Clerk where
  id : Nat
  username : String
  email : String
  password : String
  is_active : Bool
  admin_id : Nat
  store_id : Option Nat
deriving Repr, DecidableEq

/-- Product row, from `app/models/products.py`. -/
structure Product where
  id : Nat
  name : String
  description : String
  buying_price : Int
  selling_price : Int
  merchant_id : Nat
  is_active : Bool
deriving Repr, DecidableEq

/-- Store row, from `app/models/store.py`. -/
structure Store where
  id : Nat
  name : String
  location : String
  is_active : Bool
  merchant_id : Nat
deriving Repr, DecidableEq

/-- Inventory record row, from the `Inventory` model in
`app/models/inventory.py`.  `date_recorded` is the logical creation time
used by the `order_by(Inventory.date_recorded.desc()).first()` query. -/
structure Inventory where
  id : Nat
  product_id : Nat
  store_id : Nat
  clerk_id : Option Nat
  quantity_received : Int
  items_in_stock : Int
  items_spoilt : Int
  payment_status : Bool
  buying_price_at_record : Int
  selling_price_at_record : Int
  date_recorded : Nat
deriving Repr, DecidableEq

/-- Transaction row, from the `Transaction` model in
`app/models/transactions.py`. -/
structure Transaction where
  id : Nat
  product_id : Nat
  store_id : Nat
  clerk_id : Option Nat
  quantity_sold : Int
  selling_price_at_transaction : Int
  total_revenue : Int
  transaction_date : Nat
deriving Repr, DecidableEq

/-- Status of a supply request; the source stores the strings
`Pending`, `Approved`, `Declined`, `Fulfilled`. -/
inductive SRStatus where
  | pending
  | approved
  | declined
  | fulfilled
deriving Repr, DecidableEq

/-- Supply request row, from the `SupplyRequest` model in
`app/models/supply_request.py`. -/
structure SupplyRequest where
  id : Nat
  product_id : Nat
  store_id : Nat
  requested_by_clerk_id : Option Nat
  approved_by_admin_id : Option Nat
  quantity_requested : Int
  status : SRStatus
  notes : String
  request_date : Nat
  response_date : Option Nat
deriving Repr, DecidableEq

/-- The relational state: one list of rows per table, in insertion order,
plus autoincrement counters and a logical clock for `datetime.utcnow`. -/
structure DB where
  merchants : List Merchant
  admins : List Admin
  clerks : List Clerk
  products : List Product
  stores : List Store
  inventories : List Inventory
  transactions : List Transaction
  supplyRequests : List SupplyRequest
  nextInventoryId : Nat
  nextTransactionId : Nat
  nextMerchantId : Nat
  now : Nat
deriving Repr, DecidableEq

/-- Embeds `Merchant.query.get(pk)`. -/
def findMerchant (db : DB) (i : Nat) : Option Merchant :=
  db.merchants.find? (fun m => m.id == i)

/-- Embeds `Admin.query.get(pk)`. -/
def findAdmin (db : DB) (i : Nat) : Option Admin :=
  db.admins.find? (fun a => a.id == i)

/-- Embeds `Clerk.query.get(pk)`. -/
def findClerk (db : DB) (i : Nat) : Option Clerk :=
  db.clerks.find? (fun c => c.id == i)

/-- Embeds `Product.query.get(pk)`. -/
def findProduct (db : DB) (i : Nat) : Option Product :=
  db.products.find? (fun p => p.id == i)

/-- Embeds `Store.query.get(pk)`. -/
def findStore (db : DB) (i : Nat) : Option Store :=
  db.stores.find? (fun s => s.id == i)

/-- Embeds `Inventory.query.get(pk)`. -/
def findInventory (db : DB) (i : Nat) : Option Inventory :=
  db.inventories.find? (fun r => r.id == i)

/-- Embeds `Transaction.query.get(pk)`. -/
def findTransaction (db : DB) (i : Nat) : Option Transaction :=
  db.transactions.find? (fun t => t.id == i)

/-- Embeds `SupplyRequest.query.get(pk)`. -/
def findSupplyRequest (db : DB) (i : Nat) : Option SupplyRequest :=
  db.supplyRequests.find? (fun r => r.id == i)

/-- Embeds `Inventory.query.filter_by(product_id=..., store_id=...)
.order_by(Inventory.date_recorded.desc()).first()`: the matching record
with the greatest `date_recorded`, later-inserted rows winning ties. -/
def latestInventory (recs : List Inventory) (pid sid : Nat) : Option Inventory :=
  (recs.filter (fun r => r.product_id == pid && r.store_id == sid)).foldl
    (fun acc r =>
      match acc with
      | none => some r
      | some b => if b.date_recorded ≤ r.date_recorded then some r else some b)
    none

/-- Python truthiness of a nullable integer column: `None` and `0` are
falsy (`if clerk.store_id and ...`). -/
def optTruthy : Option Nat → Bool
  | none => false
  | some v => v != 0

/-- The `user_type` claim carried by a token; `UserLogin.post` only ever
issues the strings `merchant`, `admin`, `clerk`. -/
inductive UserType where
  | merchant
  | admin
  | clerk
deriving Repr, DecidableEq

/-- Guard `merchant_required` from `app/auth/permissions.py`: passes
(returns `none`) iff a Merchant row with the token's subject id exists and
has `is_superuser`; the token's `user_type` claim is never consulted. -/
def merchantRequiredGuard (db : DB) (uid : Nat) (_ut : UserType) : Option Resp :=
  match findMerchant db uid with
  | some m => if m.is_superuser then none else some ⟨403, "Merchant (Superuser) access required"⟩
  | none => some ⟨403, "Merchant (Superuser) access required"⟩

/-- Guard `admin_required` from `app/auth/permissions.py`: passes iff
an Admin row with the token's subject id exists; the token's `user_type`
claim is never consulted. -/
def adminRequiredGuard (db : DB) (uid : Nat) (_ut : UserType) : Option Resp :=
  match findAdmin db uid with
  | some _ => none
  | none => some ⟨403, "Admin access required"⟩

/-- Guard `clerk_required` from `app/auth/permissions.py`: passes iff
a Clerk row with the token's subject id exists; the token's `user_type`
claim is never consulted. -/
def clerkRequiredGuard (db : DB) (uid : Nat) (_ut : UserType) : Option Resp :=
  match findClerk db uid with
  | some _ => none
  | none => some ⟨403, "Clerk access required"⟩

/-- Body of `POST /transactions/` after JSON decoding; all three fields
present as integers (`int(...)` conversion already applied). -/
structure SellBody where
  product_id : Nat
  store_id : Nat
  quantity_sold : Int
deriving Repr, DecidableEq

/-- Handler `TransactionListResource.post` from `app/models/transactions.py`:
the clerk-authenticated `sell` operation.  The `clerk_required` guard and
the handler perform the same `Clerk.query.get`, collapsed into one match
(the handler's own `404 Clerk not found` branch is unreachable once the
guard has passed).  `not all([product_id, store_id, ...])` makes an id of
`0` falsy, hence the missing-fields branch. -/
def transactionsPost (db : DB) (uid : Nat) (b : SellBody) : Resp × DB :=
  match findClerk db uid with
  | none => (⟨403, "Clerk access required"⟩, db)
  | some clerk =>
    if b.product_id == 0 || b.store_id == 0 then
      (⟨400, "Missing required fields: product_id, store_id, quantity_sold"⟩, db)
    else if b.quantity_sold ≤ 0 then
      (⟨400, "Quantity sold must be positive"⟩, db)
    else
      match findProduct db b.product_id with
      | none => (⟨404, "Product with ID " ++ toString b.product_id ++ " not found"⟩, db)
      | some product =>
        match findStore db b.store_id with
        | none => (⟨404, "Store with ID " ++ toString b.store_id ++ " not found"⟩, db)
        | some _ =>
          if optTruthy clerk.store_id && clerk.store_id != some b.store_id then
            (⟨403, "Clerk is not assigned to this store"⟩, db)
          else
            match latestInventory db.inventories b.product_id b.store_id with
            | none => (⟨400, "Insufficient stock for this product in this store"⟩, db)
            | some rec =>
              if rec.items_in_stock < b.quantity_sold then
                (⟨400, "Insufficient stock for this product in this store"⟩, db)
              else
                (⟨201, "Transaction recorded successfully"⟩,
                 { db with
                   transactions := db.transactions ++
                     [{ id := db.nextTransactionId
                        product_id := b.product_id
                        store_id := b.store_id
                        clerk_id := some uid
                        quantity_sold := b.quantity_sold
                        selling_price_at_transaction := product.selling_price
                        total_revenue := product.selling_price * b.quantity_sold
                        transaction_date := db.now }],
                   inventories := db.inventories.map (fun r =>
                     if r.id == rec.id then
                       { r with items_in_stock := r.items_in_stock - b.quantity_sold }
                     else r),
                   nextTransactionId := db.nextTransactionId + 1,
                   now := db.now + 1 })

/-- Body of `POST /inventory/` after JSON decoding (`items_spoilt` and
`payment_status` defaults already applied by `data.get`). -/
structure ReceiptBody where
  product_id : Nat
  store_id : Nat
  quantity_received : Int
  items_spoilt : Int
  payment_status : Bool
deriving Repr, DecidableEq

/-- Handler `InventoryListResource.post` from `app/models/inventory.py`:
the clerk-authenticated `recordReceipt` operation.  As with the sell
handler, the `clerk_required` guard and the handler's own lookup are the
same query, collapsed into one match.  Note the source rejects negative
inputs but does not reject `items_spoilt > quantity_received`, so the
stored `items_in_stock` can be negative. -/
def inventoryPost (db : DB) (uid : Nat) (b : ReceiptBody) : Resp × DB :=
  match findClerk db uid with
  | none => (⟨403, "Clerk access required"⟩, db)
  | some clerk =>
    if b.product_id == 0 || b.store_id == 0 then
      (⟨400, "Missing required fields: product_id, store_id, quantity_received"⟩, db)
    else if b.quantity_received < 0 || b.items_spoilt < 0 then
      (⟨400, "Quantities cannot be negative"⟩, db)
    else
      match findProduct db b.product_id with
      | none => (⟨404, "Product with ID " ++ toString b.product_id ++ " not found"⟩, db)
      | some product =>
        match findStore db b.store_id with
        | none => (⟨404, "Store with ID " ++ toString b.store_id ++ " not found"⟩, db)
        | some _ =>
          if optTruthy clerk.store_id && clerk.store_id != some b.store_id then
            (⟨403, "Clerk is not assigned to this store"⟩, db)
          else
            (⟨201, "Inventory record created successfully"⟩,
             { db with
               inventories := db.inventories ++
                 [{ id := db.nextInventoryId
                    product_id := b.product_id
                    store_id := b.store_id
                    clerk_id := some uid
                    quantity_received := b.quantity_received
                    items_in_stock := b.quantity_received - b.items_spoilt
                    items_spoilt := b.items_spoilt
                    payment_status := b.payment_status
                    buying_price_at_record := product.buying_price
                    selling_price_at_record := product.selling_price
                    date_recorded := db.now }],
               nextInventoryId := db.nextInventoryId + 1,
               now := db.now + 1 })

/-- Body of `PUT /inventory/<id>`: presence of each JSON key matters
(`'items_in_stock' in data`), so each field is an `Option`, values
already `int(...)`/`float(...)`-converted. -/
structure InvPutBody where
  quantity_received : Option Int
  items_in_stock : Option Int
  items_spoilt : Option Int
  payment_status : Option Bool
  buying_price_at_record : Option Int
  selling_price_at_record : Option Int
deriving Repr, DecidableEq

/-- Shared commit step of `InventoryResource.put`: `db.session.commit()`
writes the mutated row back, keyed by its primary key. -/
def inventoryPutCommit (db : DB) (recId : Nat) (newRec : Inventory) : Resp × DB :=
  (⟨200, "Inventory record updated successfully"⟩,
   { db with inventories := db.inventories.map (fun r => if r.id == recId then newRec else r) })

/-- Tail of the clerk branch of `InventoryResource.put`: the
`items_spoilt` update and the `No valid fields` check.  Any 400 return
happens before `db.session.commit()`, so the session's in-memory
mutations are never persisted and the state is unchanged. -/
def inventoryPutClerkSpoilt (db : DB) (recId : Nat) (rec1 : Inventory) (b : InvPutBody)
    (hadStock : Bool) : Resp × DB :=
  match b.items_spoilt with
  | some v =>
    if v < 0 then (⟨400, "Items spoilt cannot be negative"⟩, db)
    else inventoryPutCommit db recId { rec1 with items_spoilt := v }
  | none =>
    if hadStock then inventoryPutCommit db recId rec1
    else (⟨400, "No valid fields for Clerk to update provided"⟩, db)

/-- Clerk branch of `InventoryResource.put`: only the record's creator may
update it, `payment_status`/`quantity_received`/price fields are rejected
with 403 before anything is touched, then `items_in_stock` and
`items_spoilt` are applied with negativity checks. -/
def inventoryPutClerk (db : DB) (uid : Nat) (record : Inventory) (b : InvPutBody) : Resp × DB :=
  match findClerk db uid with
  | none => (⟨403, "Unauthorized to update this inventory record"⟩, db)
  | some clerk =>
    if record.clerk_id != some clerk.id then
      (⟨403, "Unauthorized to update this inventory record"⟩, db)
    else if b.payment_status.isSome || b.quantity_received.isSome ||
        b.buying_price_at_record.isSome || b.selling_price_at_record.isSome then
      (⟨403, "Clerks can only update stock and spoilt items in inventory records"⟩, db)
    else
      match b.items_in_stock with
      | some v =>
        if v < 0 then (⟨400, "Items in stock cannot be negative"⟩, db)
        else inventoryPutClerkSpoilt db record.id { record with items_in_stock := v } b true
      | none => inventoryPutClerkSpoilt db record.id record b false

/-- Admin branch of `InventoryResource.put`: store-scope check (Python
truthiness on `admin.store_id`), then everything except `payment_status`
is rejected with 403. -/
def inventoryPutAdmin (db : DB) (uid : Nat) (record : Inventory) (b : InvPutBody) : Resp × DB :=
  match findAdmin db uid with
  | none => (⟨403, "Unauthorized to update this inventory record"⟩, db)
  | some admin =>
    if optTruthy admin.store_id && admin.store_id != some record.store_id then
      (⟨403, "Unauthorized to update this inventory record"⟩, db)
    else if b.quantity_received.isSome || b.items_in_stock.isSome || b.items_spoilt.isSome ||
        b.buying_price_at_record.isSome || b.selling_price_at_record.isSome then
      (⟨403, "Admins can only update payment status of inventory records"⟩, db)
    else
      match b.payment_status with
      | some v => inventoryPutCommit db record.id { record with payment_status := v }
      | none => (⟨400, "No valid fields for Admin to update provided"⟩, db)

/-- Step 6 of the merchant branch of `InventoryResource.put`:
`selling_price_at_record`. -/
def inventoryPutMerchant6 (db : DB) (record : Inventory) (b : InvPutBody) : Resp × DB :=
  match b.selling_price_at_record with
  | some v =>
    if v < 0 then (⟨400, "Selling price cannot be negative"⟩, db)
    else inventoryPutCommit db record.id { record with selling_price_at_record := v }
  | none => inventoryPutCommit db record.id record

/-- Step 5 of the merchant branch: `buying_price_at_record`. -/
def inventoryPutMerchant5 (db : DB) (record : Inventory) (b : InvPutBody) : Resp × DB :=
  match b.buying_price_at_record with
  | some v =>
    if v < 0 then (⟨400, "Buying price cannot be negative"⟩, db)
    else inventoryPutMerchant6 db { record with buying_price_at_record := v } b
  | none => inventoryPutMerchant6 db record b

/-- Step 4 of the merchant branch: `payment_status` (no validation). -/
def inventoryPutMerchant4 (db : DB) (record : Inventory) (b : InvPutBody) : Resp × DB :=
  match b.payment_status with
  | some v => inventoryPutMerchant5 db { record with payment_status := v } b
  | none => inventoryPutMerchant5 db record b

/-- Step 3 of the merchant branch: `items_spoilt`. -/
def inventoryPutMerchant3 (db : DB) (record : Inventory) (b : InvPutBody) : Resp × DB :=
  match b.items_spoilt with
  | some v =>
    if v < 0 then (⟨400, "Items spoilt cannot be negative"⟩, db)
    else inventoryPutMerchant4 db { record with items_spoilt := v } b
  | none => inventoryPutMerchant4 db record b

/-- Step 2 of the merchant branch: `items_in_stock`. -/
def inventoryPutMerchant2 (db : DB) (record : Inventory) (b : InvPutBody) : Resp × DB :=
  match b.items_in_stock with
  | some v =>
    if v < 0 then (⟨400, "Items in stock cannot be negative"⟩, db)
    else inventoryPutMerchant3 db { record with items_in_stock := v } b
  | none => inventoryPutMerchant3 db record b

/-- Merchant branch of `InventoryResource.put`: any field may be set, each
integer field guarded by a negativity check; the role section performs no
merchant-row lookup (`pass`). -/
def inventoryPutMerchant (db : DB) (record : Inventory) (b : InvPutBody) : Resp × DB :=
  match b.quantity_received with
  | some v =>
    if v < 0 then (⟨400, "Quantity received cannot be negative"⟩, db)
    else inventoryPutMerchant2 db { record with quantity_received := v } b
  | none => inventoryPutMerchant2 db record b

/-- Handler `InventoryResource.put` from `app/models/inventory.py`. -/
def inventoryPut (db : DB) (uid : Nat) (ut : UserType) (rid : Nat) (b : InvPutBody) : Resp × DB :=
  match findInventory db rid with
  | none => (⟨404, "Inventory record not found"⟩, db)
  | some record =>
    match ut with
    | .merchant => inventoryPutMerchant db record b
    | .admin => inventoryPutAdmin db uid record b
    | .clerk => inventoryPutClerk db uid record b

/-- Handler `InventoryResource.get` from `app/models/inventory.py`:
single-record view; `ok` is the 200 response carrying the record. -/
def inventoryGetOne (db : DB) (uid : Nat) (ut : UserType) (rid : Nat) : Except Resp Inventory :=
  match findInventory db rid with
  | none => .error ⟨404, "Inventory record not found"⟩
  | some record =>
    match ut with
    | .merchant => .ok record
    | .admin =>
      match findAdmin db uid with
      | none => .error ⟨403, "Unauthorized to view this inventory record"⟩
      | some admin =>
        if optTruthy admin.store_id && admin.store_id != some record.store_id then
          .error ⟨403, "Unauthorized to view this inventory record"⟩
        else .ok record
    | .clerk =>
      match findClerk db uid with
      | none => .error ⟨403, "Unauthorized to view this inventory record"⟩
      | some clerk =>
        if record.clerk_id != some clerk.id then
          .error ⟨403, "Unauthorized to view this inventory record"⟩
        else .ok record

/-- Handler `TransactionResource.get` from `app/models/transactions.py`:
single-record view. -/
def transactionGetOne (db : DB) (uid : Nat) (ut : UserType) (tid : Nat) : Except Resp Transaction :=
  match findTransaction db tid with
  | none => .error ⟨404, "Transaction not found"⟩
  | some t =>
    match ut with
    | .merchant => .ok t
    | .admin =>
      match findAdmin db uid with
      | none => .error ⟨403, "Unauthorized to view this transaction record"⟩
      | some admin =>
        if optTruthy admin.store_id && admin.store_id != some t.store_id then
          .error ⟨403, "Unauthorized to view this transaction record"⟩
        else .ok t
    | .clerk =>
      match findClerk db uid with
      | none => .error ⟨403, "Unauthorized to view this transaction record"⟩
      | some clerk =>
        if t.clerk_id != some clerk.id then
          .error ⟨403, "Unauthorized to view this transaction record"⟩
        else .ok t

/-- Handler `InventoryListResource.get` from `app/models/inventory.py`:
merchant sees all rows, an assigned admin its store's rows, an unassigned
admin is denied, a clerk sees its own rows. -/
def inventoryListGet (db : DB) (uid : Nat) (ut : UserType) : Except Resp (List Inventory) :=
  match ut with
  | .merchant => .ok db.inventories
  | .admin =>
    match findAdmin db uid with
    | none => .error ⟨404, "Admin not found"⟩
    | some admin =>
      if optTruthy admin.store_id then
        .ok (db.inventories.filter (fun r => some r.store_id == admin.store_id))
      else
        .error ⟨403, "Admin not assigned to a store. Cannot view specific inventory records."⟩
  | .clerk =>
    match findClerk db uid with
    | none => .error ⟨404, "Clerk not found"⟩
    | some _ => .ok (db.inventories.filter (fun r => r.clerk_id == some uid))

/-- Handler `TransactionListResource.get` from
`app/models/transactions.py`. -/
def transactionsListGet (db : DB) (uid : Nat) (ut : UserType) : Except Resp (List Transaction) :=
  match ut with
  | .merchant => .ok db.transactions
  | .admin =>
    match findAdmin db uid with
    | none => .error ⟨404, "Admin not found"⟩
    | some admin =>
      if optTruthy admin.store_id then
        .ok (db.transactions.filter (fun t => some t.store_id == admin.store_id))
      else
        .error ⟨403, "Admin not assigned to a store. Cannot view transactions."⟩
  | .clerk =>
    match findClerk db uid with
    | none => .error ⟨404, "Clerk not found"⟩
    | some _ => .ok (db.transactions.filter (fun t => t.clerk_id == some uid))

/-- Handler `SupplyRequestListResource.get` from
`app/models/supply_request.py`. -/
def supplyRequestsListGet (db : DB) (uid : Nat) (ut : UserType) :
    Except Resp (List SupplyRequest) :=
  match ut with
  | .merchant => .ok db.supplyRequests
  | .admin =>
    match findAdmin db uid with
    | none => .error ⟨404, "Admin not found"⟩
    | some admin =>
      if optTruthy admin.store_id then
        .ok (db.supplyRequests.filter (fun r => some r.store_id == admin.store_id))
      else
        .error ⟨403, "Admin not assigned to a store. Cannot view supply requests."⟩
  | .clerk =>
    match findClerk db uid with
    | none => .error ⟨404, "Clerk not found"⟩
    | some _ => .ok (db.supplyRequests.filter (fun r => r.requested_by_clerk_id == some uid))

/-- Method `BaseReportResource.get_authorized_query` from
`app/models/reports.py`, shared by every report endpoint: returns the
store filter to apply (`none` means unscoped, for the merchant), or the
error response.  A clerk (or any non-merchant, non-admin type) is denied;
an admin without a store is denied with the distinct unassigned message. -/
def reportsAuthorizedScope (db : DB) (uid : Nat) (ut : UserType) : Except Resp (Option Nat) :=
  match ut with
  | .merchant => .ok none
  | .admin =>
    match findAdmin db uid with
    | none => .error ⟨404, "Admin not found"⟩
    | some admin =>
      if optTruthy admin.store_id then .ok admin.store_id
      else
        .error ⟨403, "Admin not assigned to a store. Cannot generate store-specific reports."⟩
  | .clerk => .error ⟨403, "Unauthorized to view reports"⟩

/-- Body of `PUT /supply-requests/<id>`; the handler reads `notes` and was
meant to read `status`. -/
structure SupplyPutBody where
  status : Option SRStatus
  notes : Option String
deriving Repr, DecidableEq

/-- Handler `SupplyRequestResource.put` from `app/models/supply_request.py`
(the `admin_required` guard collapsed with the handler's identical
`Admin.query.get`).  After the store-scope check, line 204 executes
`if not status:` — but no local `status` was ever assigned (the
`status = data.get('status')` line is absent), so Python raises
`NameError` and Flask answers 500; nothing is ever committed, whatever
the request body contains. -/
def supplyRequestPut (db : DB) (uid : Nat) (reqId : Nat) (_b : SupplyPutBody) : Resp × DB :=
  match findAdmin db uid with
  | none => (⟨403, "Admin access required"⟩, db)
  | some admin =>
    match findSupplyRequest db reqId with
    | none => (⟨404, "Supply request not found"⟩, db)
    | some req =>
      if optTruthy admin.store_id && admin.store_id != some req.store_id then
        (⟨403, "Admin is not assigned to this store to approve requests"⟩, db)
      else
        (⟨500, "Internal Server Error"⟩, db)

/-- Special characters accepted by `validate_password`, from the regex
character class in `app/utils/validators.py` (braces written via
`Char.ofNat`). -/
def specialChars : List Char :=
  ['!', '@', '#', '$', '%', '^', '&', '*', '(', ')', ',', '.', '?',
   Char.ofNat 34, ':', Char.ofNat 123, Char.ofNat 125, '|', '<', '>']

/-- Function `validate_password` from `app/utils/validators.py`: at least
8 characters, one ASCII uppercase, one ASCII lowercase, one ASCII digit,
one special character. -/
def validatePassword (p : String) : Bool :=
  8 ≤ p.length &&
  p.toList.any (fun c => c.isUpper) &&
  p.toList.any (fun c => c.isLower) &&
  p.toList.any (fun c => c.isDigit) &&
  p.toList.any (fun c => specialChars.contains c)

/-- Splits a character list on a separator; helper for the email model. -/
def splitChar (sep : Char) : List Char → List (List Char)
  | [] => [[]]
  | c :: rest =>
    let r := splitChar sep rest
    if c == sep then [] :: r
    else
      match r with
      | h :: t => (c :: h) :: t
      | [] => [[c]]

/-- Modelled from the spec: `validate_email` delegates to the external
`validators` library, declared an out-of-scope collaborator; modelled as
the basic well-formedness check (one `@`, nonempty local part, domain
with an inner dot). -/
def validateEmail (e : String) : Bool :=
  match splitChar '@' e.toList with
  | [l, d] =>
    !l.isEmpty && d.contains '.' && d.head? != some '.' && d.getLast? != some '.'
  | _ => false

/-- Outcome of `UserLogin.post`; `accountInactive` (HTTP 403) and
`invalidCredentials` (HTTP 401) are distinct by construction. -/
inductive LoginResult where
  | missingFields
  | invalidEmail
  | invalidCredentials
  | accountInactive
  | success (uid : Nat) (ut : UserType)
deriving Repr, DecidableEq

/-- Embeds `Merchant.query.filter_by(email=...).first()`. -/
def findMerchantByEmail (db : DB) (e : String) : Option Merchant :=
  db.merchants.find? (fun m => m.email == e)

/-- Embeds `Admin.query.filter_by(email=...).first()`. -/
def findAdminByEmail (db : DB) (e : String) : Option Admin :=
  db.admins.find? (fun a => a.email == e)

/-- Embeds `Clerk.query.filter_by(email=...).first()`. -/
def findClerkByEmail (db : DB) (e : String) : Option Clerk :=
  db.clerks.find? (fun c => c.email == e)

/-- Tail of `UserLogin.post` once an account row has matched by email:
`check_password` (modelled as comparison with the stored secret), then the
`is_active` gate. -/
def loginFinish (stored : String) (active : Bool) (uid : Nat) (ut : UserType)
    (pw : String) : LoginResult :=
  if pw != stored then .invalidCredentials
  else if !active then .accountInactive
  else .success uid ut

/-- Handler `UserLogin.post` from `app/auth/login.py`: email lookup tries
Merchant, then Admin, then Clerk, and the first row whose email matches is
the account used; no fallthrough to later kinds happens after a match. -/
def loginPost (db : DB) (email pw : String) : LoginResult :=
  if email == "" || pw == "" then .missingFields
  else if !validateEmail email then .invalidEmail
  else
    match findMerchantByEmail db email with
    | some m => loginFinish m.password m.is_active m.id .merchant pw
    | none =>
      match findAdminByEmail db email with
      | some a => loginFinish a.password a.is_active a.id .admin pw
      | none =>
        match findClerkByEmail db email with
        | some c => loginFinish c.password c.is_active c.id .clerk pw
        | none => .invalidCredentials

/-- Handler `MerchantRegistration.post` from `app/models/merchant.py`:
open registration that refuses to run once any Merchant row exists
(`Merchant.query.first()`); the new account is the active superuser.  The
`IntegrityError` 409 branch is unreachable here because the merchant table
is empty whenever the insert runs. -/
def merchantRegister (db : DB) (username email password : String) : Resp × DB :=
  if username == "" || email == "" || password == "" then
    (⟨400, "Missing required fields: username, email, password"⟩, db)
  else if !validateEmail email then
    (⟨400, "Invalid email format"⟩, db)
  else if !validatePassword password then
    (⟨400, "Password does not meet requirements"⟩, db)
  else
    match db.merchants with
    | _ :: _ => (⟨403, "Superuser (Merchant) already exists. Registration not allowed."⟩, db)
    | [] =>
      (⟨201, "Superuser (Merchant) registered successfully"⟩,
       { db with
         merchants := [{ id := db.nextMerchantId
                         username := username
                         email := email
                         password := password
                         is_active := true
                         is_superuser := true }],
         nextMerchantId := db.nextMerchantId + 1 })

/-! ## Concrete rows and states used to instantiate the theorems -/

/-- Demo clerk, assigned to store 1. -/
def demoClerk : Clerk :=
  { id := 1, username := "clerk1", email := "c@x.com", password := "Clerk1!aa"
    is_active := true, admin_id := 1, store_id := some 1 }

/-- Demo admin, assigned to store 1. -/
def demoAdmin : Admin :=
  { id := 1, username := "admin1", email := "a@x.com", password := "Admin1!aa"
    is_active := true, merchant_id := 1, store_id := some 1 }

/-- Demo merchant. -/
def demoMerchant : Merchant :=
  { id := 1, username := "M", email := "m@x.com", password := "Strong1!A"
    is_active := true, is_superuser := true }

/-- Demo product: the spec scenario's Widget (buying 10, selling 15). -/
def demoProduct : Product :=
  { id := 1, name := "Widget", description := "w", buying_price := 10
    selling_price := 15, merchant_id := 1, is_active := true }

/-- Demo store. -/
def demoStore : Store :=
  { id := 1, name := "S1", location := "loc", is_active := true, merchant_id := 1 }

/-- Demo inventory record: receipt of 100 with 5 spoilt, 95 in stock. -/
def demoRec : Inventory :=
  { id := 1, product_id := 1, store_id := 1, clerk_id := some 1
    quantity_received := 100, items_in_stock := 95, items_spoilt := 5
    payment_status := false, buying_price_at_record := 10
    selling_price_at_record := 15, date_recorded := 0 }

/-- Demo state: one merchant, admin, clerk, product, store and the
inventory record above. -/
def demoDB : DB :=
  { merchants := [demoMerchant], admins := [demoAdmin], clerks := [demoClerk]
    products := [demoProduct], stores := [demoStore], inventories := [demoRec]
    transactions := [], supplyRequests := []
    nextInventoryId := 2, nextTransactionId := 1, nextMerchantId := 2, now := 1 }

/-! ## C1/C2 — the sell operation -/

/-- C1: a clerk-authenticated sell on an existing product and store, with
matching clerk store scope, positive quantity, and enough stock on the
most-recently-created inventory record for the (product, store) pair,
creates a Transaction carrying the product's current selling price and
`total_revenue = price * quantity`, and decrements exactly that inventory
record's `items_in_stock` by the quantity sold; both effects appear in the
single returned post-state (one commit), so one is visible iff the other
is. -/
theorem sell_atomic_success (db : DB) (uid : Nat) (b : SellBody)
    (clerk : Clerk) (product : Product) (store : Store) (rec : Inventory)
    (hclerk : findClerk db uid = some clerk)
    (hpid : b.product_id ≠ 0) (hsid : b.store_id ≠ 0)
    (hq : 0 < b.quantity_sold)
    (hprod : findProduct db b.product_id = some product)
    (hstore : findStore db b.store_id = some store)
    (hscope : clerk.store_id = none ∨ clerk.store_id = some b.store_id)
    (hrec : latestInventory db.inventories b.product_id b.store_id = some rec)
    (hstock : b.quantity_sold ≤ rec.items_in_stock) :
    transactionsPost db uid b =
      (⟨201, "Transaction recorded successfully"⟩,
       { db with
         transactions := db.transactions ++
           [{ id := db.nextTransactionId
              product_id := b.product_id
              store_id := b.store_id
              clerk_id := some uid
              quantity_sold := b.quantity_sold
              selling_price_at_transaction := product.selling_price
              total_revenue := product.selling_price * b.quantity_sold
              transaction_date := db.now }],
         inventories := db.inventories.map (fun r =>
           if r.id == rec.id then
             { r with items_in_stock := r.items_in_stock - b.quantity_sold }
           else r),
         nextTransactionId := db.nextTransactionId + 1,
         now := db.now + 1 }) := by
  have h3 : ¬ (b.quantity_sold ≤ 0) := by omega
  have h5 : ¬ (rec.items_in_stock < b.quantity_sold) := by omega
  rcases hscope with h | h <;>
    simp [transactionsPost, hclerk, hprod, hstore, hrec, h, optTruthy,
      hpid, hsid, h3, h5]

/-- Witness for C1 at the spec's scenario numbers: selling 95 Widgets
from the demo state succeeds, records revenue 15 × 95 = 1425 and brings
the stock of record 1 to zero. -/
theorem sell_atomic_success_witness :
    transactionsPost demoDB 1 ⟨1, 1, 95⟩ =
      (⟨201, "Transaction recorded successfully"⟩,
       { demoDB with
         transactions := demoDB.transactions ++
           [{ id := demoDB.nextTransactionId
              product_id := 1
              store_id := 1
              clerk_id := some 1
              quantity_sold := 95
              selling_price_at_transaction := demoProduct.selling_price
              total_revenue := demoProduct.selling_price * 95
              transaction_date := demoDB.now }],
         inventories := demoDB.inventories.map (fun r =>
           if r.id == demoRec.id then
             { r with items_in_stock := r.items_in_stock - 95 }
           else r),
         nextTransactionId := demoDB.nextTransactionId + 1,
         now := demoDB.now + 1 }) :=
  sell_atomic_success demoDB 1 ⟨1, 1, 95⟩ demoClerk demoProduct demoStore demoRec
    rfl (by decide) (by decide) (by decide) rfl rfl (Or.inr rfl) rfl (by decide)

/-- C2: a clerk-authenticated sell with positive quantity, existing
product and store and matching scope, where no inventory record exists for
the pair or the most-recently-created one holds fewer items than
requested, answers the insufficient-stock error and leaves the state
untouched: no Transaction row and no stock change. -/
theorem sell_insufficient_stock (db : DB) (uid : Nat) (b : SellBody)
    (clerk : Clerk) (product : Product) (store : Store)
    (hclerk : findClerk db uid = some clerk)
    (hpid : b.product_id ≠ 0) (hsid : b.store_id ≠ 0)
    (hq : 0 < b.quantity_sold)
    (hprod : findProduct db b.product_id = some product)
    (hstore : findStore db b.store_id = some store)
    (hscope : clerk.store_id = none ∨ clerk.store_id = some b.store_id)
    (hfail : latestInventory db.inventories b.product_id b.store_id = none ∨
      ∃ rec, latestInventory db.inventories b.product_id b.store_id = some rec ∧
        rec.items_in_stock < b.quantity_sold) :
    transactionsPost db uid b =
      (⟨400, "Insufficient stock for this product in this store"⟩, db) := by
  have h3 : ¬ (b.quantity_sold ≤ 0) := by omega
  rcases hfail with hnone | ⟨rec, hrec, hlt⟩ <;>
    rcases hscope with h | h <;>
    simp_all [transactionsPost, optTruthy, hpid, hsid, h3]

/-- Witness for C2: selling 96 Widgets when the latest record holds 95
fails with the insufficient-stock error and changes nothing. -/
theorem sell_insufficient_stock_witness :
    transactionsPost demoDB 1 ⟨1, 1, 96⟩ =
      (⟨400, "Insufficient stock for this product in this store"⟩, demoDB) :=
  sell_insufficient_stock demoDB 1 ⟨1, 1, 96⟩ demoClerk demoProduct demoStore
    rfl (by decide) (by decide) (by decide) rfl rfl (Or.inr rfl)
    (Or.inr ⟨demoRec, rfl, by decide⟩)

/-! ## C4 — recording a receipt -/

/-- C4: a clerk-authenticated receipt on an existing product and store
with matching scope and non-negative quantities creates an inventory
record with `items_in_stock = quantity_received - items_spoilt` (an `Int`,
negative whenever more items are spoilt than received — the source does
not reject that) and snapshots the product's current buying and selling
prices. -/
theorem receipt_creates_record (db : DB) (uid : Nat) (b : ReceiptBody)
    (clerk : Clerk) (product : Product) (store : Store)
    (hclerk : findClerk db uid = some clerk)
    (hpid : b.product_id ≠ 0) (hsid : b.store_id ≠ 0)
    (hqr : 0 ≤ b.quantity_received) (hsp : 0 ≤ b.items_spoilt)
    (hprod : findProduct db b.product_id = some product)
    (hstore : findStore db b.store_id = some store)
    (hscope : clerk.store_id = none ∨ clerk.store_id = some b.store_id) :
    inventoryPost db uid b =
      (⟨201, "Inventory record created successfully"⟩,
       { db with
         inventories := db.inventories ++
           [{ id := db.nextInventoryId
              product_id := b.product_id
              store_id := b.store_id
              clerk_id := some uid
              quantity_received := b.quantity_received
              items_in_stock := b.quantity_received - b.items_spoilt
              items_spoilt := b.items_spoilt
              payment_status := b.payment_status
              buying_price_at_record := product.buying_price
              selling_price_at_record := product.selling_price
              date_recorded := db.now }],
         nextInventoryId := db.nextInventoryId + 1,
         now := db.now + 1 }) := by
  have h1 : ¬ (b.quantity_received < 0) := by omega
  have h2 : ¬ (b.items_spoilt < 0) := by omega
  rcases hscope with h | h <;>
    simp [inventoryPost, hclerk, hprod, hstore, h, optTruthy, hpid, hsid, h1, h2]

/-- Witness for C4, exercising the not-rejected negative case: a receipt
of 2 with 5 spoilt is accepted and stores `items_in_stock = -3`. -/
theorem receipt_creates_record_witness :
    inventoryPost demoDB 1 ⟨1, 1, 2, 5, false⟩ =
      (⟨201, "Inventory record created successfully"⟩,
       { demoDB with
         inventories := demoDB.inventories ++
           [{ id := demoDB.nextInventoryId
              product_id := 1
              store_id := 1
              clerk_id := some 1
              quantity_received := 2
              items_in_stock := (2 : Int) - 5
              items_spoilt := 5
              payment_status := false
              buying_price_at_record := demoProduct.buying_price
              selling_price_at_record := demoProduct.selling_price
              date_recorded := demoDB.now }],
         nextInventoryId := demoDB.nextInventoryId + 1,
         now := demoDB.now + 1 }) :=
  receipt_creates_record demoDB 1 ⟨1, 1, 2, 5, false⟩ demoClerk demoProduct demoStore
    rfl (by decide) (by decide) (by decide) (by decide) rfl rfl (Or.inr rfl)

/-! ## C5 — clerk updates of an inventory record -/

/-- C5: on a clerk-authenticated update of an inventory record the clerk
created, a body containing `payment_status`, `quantity_received`,
`buying_price_at_record` or `selling_price_at_record` is answered 403 with
the record (and the whole state) unchanged; and whatever the body, the
post-state is either unchanged or differs only by that record's
`items_in_stock` and `items_spoilt` fields. -/
theorem clerk_update_field_restrictions
    (db : DB) (uid rid : Nat) (b : InvPutBody) (record : Inventory) (clerk : Clerk)
    (hrec : findInventory db rid = some record)
    (hclerk : findClerk db uid = some clerk)
    (hown : record.clerk_id = some clerk.id) :
    ((b.payment_status.isSome ∨ b.quantity_received.isSome ∨
        b.buying_price_at_record.isSome ∨ b.selling_price_at_record.isSome) →
      inventoryPut db uid .clerk rid b =
        (⟨403, "Clerks can only update stock and spoilt items in inventory records"⟩, db)) ∧
    ((inventoryPut db uid .clerk rid b).2 = db ∨
      ∃ stock spoilt,
        (inventoryPut db uid .clerk rid b).2 =
          { db with inventories := db.inventories.map (fun r =>
              if r.id == record.id then
                { record with items_in_stock := stock, items_spoilt := spoilt }
              else r) }) := by
  have hneq : (record.clerk_id != some clerk.id) = false := by simp [hown]
  constructor
  · intro hforb
    have hf : (b.payment_status.isSome || b.quantity_received.isSome ||
        b.buying_price_at_record.isSome || b.selling_price_at_record.isSome) = true := by
      rcases hforb with h | h | h | h <;> simp [h]
    simp [inventoryPut, hrec, inventoryPutClerk, hclerk, hneq, hf]
  · by_cases hf : (b.payment_status.isSome || b.quantity_received.isSome ||
        b.buying_price_at_record.isSome || b.selling_price_at_record.isSome) = true
    · left
      simp [inventoryPut, hrec, inventoryPutClerk, hclerk, hneq, hf]
    · have hps : b.payment_status = none := by
        cases h : b.payment_status
        · rfl
        · exact absurd (by simp [h]) hf
      have hqr : b.quantity_received = none := by
        cases h : b.quantity_received
        · rfl
        · exact absurd (by simp [h]) hf
      have hbp : b.buying_price_at_record = none := by
        cases h : b.buying_price_at_record
        · rfl
        · exact absurd (by simp [h]) hf
      have hsp : b.selling_price_at_record = none := by
        cases h : b.selling_price_at_record
        · rfl
        · exact absurd (by simp [h]) hf
      rcases h1 : b.items_in_stock with _ | v <;> rcases h2 : b.items_spoilt with _ | w
      · left
        simp [inventoryPut, hrec, inventoryPutClerk, inventoryPutClerkSpoilt,
          hclerk, hneq, hps, hqr, hbp, hsp, h1, h2]
      · by_cases hw : w < 0
        · left
          simp [inventoryPut, hrec, inventoryPutClerk, inventoryPutClerkSpoilt,
            hclerk, hneq, hps, hqr, hbp, hsp, h1, h2, hw]
        · right
          refine ⟨record.items_in_stock, w, ?_⟩
          simp [inventoryPut, hrec, inventoryPutClerk, inventoryPutClerkSpoilt,
            inventoryPutCommit, hclerk, hneq, hps, hqr, hbp, hsp, h1, h2, hw]
      · by_cases hv : v < 0
        · left
          simp [inventoryPut, hrec, inventoryPutClerk, inventoryPutClerkSpoilt,
            hclerk, hneq, hps, hqr, hbp, hsp, h1, h2, hv]
        · right
          refine ⟨v, record.items_spoilt, ?_⟩
          simp [inventoryPut, hrec, inventoryPutClerk, inventoryPutClerkSpoilt,
            inventoryPutCommit, hclerk, hneq, hps, hqr, hbp, hsp, h1, h2, hv]
      · by_cases hv : v < 0
        · left
          simp [inventoryPut, hrec, inventoryPutClerk, inventoryPutClerkSpoilt,
            hclerk, hneq, hps, hqr, hbp, hsp, h1, h2, hv]
        · by_cases hw : w < 0
          · left
            simp [inventoryPut, hrec, inventoryPutClerk, inventoryPutClerkSpoilt,
              hclerk, hneq, hps, hqr, hbp, hsp, h1, h2, hv, hw]
          · right
            refine ⟨v, w, ?_⟩
            simp [inventoryPut, hrec, inventoryPutClerk, inventoryPutClerkSpoilt,
              inventoryPutCommit, hclerk, hneq, hps, hqr, hbp, hsp, h1, h2, hv, hw]

/-- Body for the C5 witness: tries to flip `payment_status`. -/
def bodyPayment : InvPutBody :=
  { quantity_received := none, items_in_stock := none, items_spoilt := none
    payment_status := some true, buying_price_at_record := none
    selling_price_at_record := none }

/-- Witness for C5: the demo clerk asking to set `payment_status` on its
own record is answered 403 and the state is unchanged. -/
theorem clerk_update_field_restrictions_witness :
    bodyPayment.payment_status.isSome = true ∧
    inventoryPut demoDB 1 .clerk 1 bodyPayment =
      (⟨403, "Clerks can only update stock and spoilt items in inventory records"⟩, demoDB) :=
  ⟨by decide,
   (clerk_update_field_restrictions demoDB 1 1 bodyPayment demoRec demoClerk
      rfl rfl rfl).1 (Or.inl (by decide))⟩

/-! ## C3 — supply-request status transitions -/

/-- Pending supply request for store 1 (the demo admin's store). -/
def demoReqPending : SupplyRequest :=
  { id := 1, product_id := 1, store_id := 1, requested_by_clerk_id := some 1
    approved_by_admin_id := none, quantity_requested := 50, status := .pending
    notes := "", request_date := 0, response_date := none }

/-- Approved supply request for store 1. -/
def demoReqApproved : SupplyRequest :=
  { id := 2, product_id := 1, store_id := 1, requested_by_clerk_id := some 1
    approved_by_admin_id := some 1, quantity_requested := 50, status := .approved
    notes := "", request_date := 0, response_date := none }

/-- Demo state with one pending and one approved supply request in the
demo admin's store. -/
def dbSupply : DB :=
  { demoDB with supplyRequests := [demoReqPending, demoReqApproved] }

/-- C3 evaluation at the failing input: the handler `SupplyRequestResource.put`
never assigns its `status` local (the `status = data.get('status')` line is
missing), so the matching admin's perfectly valid `Pending → Approved`
request — which the claim and the handler's own docstring ("Admins can
approve/decline") say must succeed — dies with the unhandled `NameError`
(HTTP 500) and commits nothing; a non-Pending request likewise answers 500
rather than the invalid-transition error.  (Even with the assignment
restored, line 212 freezes only `Fulfilled`/`Declined`, not `Approved`.) -/
theorem supply_put_always_internal_error :
    supplyRequestPut dbSupply 1 1 ⟨some .approved, none⟩ =
      (⟨500, "Internal Server Error"⟩, dbSupply) ∧
    supplyRequestPut dbSupply 1 2 ⟨some .declined, none⟩ =
      (⟨500, "Internal Server Error"⟩, dbSupply) :=
  ⟨rfl, rfl⟩

/-! ## C10 — unassigned admins on single-record operations -/

/-- Admin with no store assignment. -/
def adminUnassigned : Admin :=
  { id := 2, username := "admin2", email := "a2@x.com", password := "Admin2!aa"
    is_active := true, merchant_id := 1, store_id := none }

/-- Inventory record in store 2 (not any demo admin's store). -/
def recStoreTwo : Inventory :=
  { demoRec with id := 2, store_id := 2 }

/-- Transaction in store 2. -/
def txStoreTwo : Transaction :=
  { id := 1, product_id := 1, store_id := 2, clerk_id := some 1
    quantity_sold := 5, selling_price_at_transaction := 15
    total_revenue := 75, transaction_date := 0 }

/-- Pending supply request in store 2. -/
def reqStoreTwo : SupplyRequest :=
  { id := 3, product_id := 1, store_id := 2, requested_by_clerk_id := some 1
    approved_by_admin_id := none, quantity_requested := 50, status := .pending
    notes := "", request_date := 0, response_date := none }

/-- Demo state containing the unassigned admin and store-2 records. -/
def dbScope : DB :=
  { demoDB with
    admins := [demoAdmin, adminUnassigned]
    inventories := [demoRec, recStoreTwo]
    transactions := [txStoreTwo]
    supplyRequests := [reqStoreTwo] }

/-- Counterexample to C10 as stated: the unassigned admin's attempt to
transition the pending store-2 supply request does not succeed — it is
answered 500 (the handler's unbound `status` local) and the state, the
request's `Pending` status included, is unchanged.  So an unassigned
admin cannot in fact "transition any store's SupplyRequest", even though
the store-scope check passes. -/
theorem unassigned_admin_transition_counterexample :
    (supplyRequestPut dbScope 2 3 ⟨some .approved, none⟩).1.status = 500 ∧
    (supplyRequestPut dbScope 2 3 ⟨some .approved, none⟩).2 = dbScope :=
  ⟨rfl, rfl⟩

/-- C10 (amended): for an admin with no store assignment, the by-id
store-scope checks all pass regardless of the record's store — the
inventory and transaction single-record reads succeed on any store's
record, and the supply-request update passes the scope check too (it is
never answered the scope 403), though it then fails for every admin with
the 500 from the unbound `status` local, so no transition results. -/
theorem unassigned_admin_single_record_access
    (db : DB) (uid : Nat) (admin : Admin)
    (hadm : findAdmin db uid = some admin) (hun : admin.store_id = none) :
    (∀ rid record, findInventory db rid = some record →
      inventoryGetOne db uid .admin rid = .ok record) ∧
    (∀ tid t, findTransaction db tid = some t →
      transactionGetOne db uid .admin tid = .ok t) ∧
    (∀ reqId req b, findSupplyRequest db reqId = some req →
      supplyRequestPut db uid reqId b = (⟨500, "Internal Server Error"⟩, db)) := by
  refine ⟨fun rid record hr => ?_, fun tid t ht => ?_, fun reqId req b hq => ?_⟩
  · simp [inventoryGetOne, hadm, hun, hr, optTruthy]
  · simp [transactionGetOne, hadm, hun, ht, optTruthy]
  · simp [supplyRequestPut, hadm, hun, hq, optTruthy]

/-- Witness for C10 (amended): the unassigned admin reads the store-2
inventory record and transaction, and its supply-request update attempt
is answered 500 (never the scope denial). -/
theorem unassigned_admin_single_record_access_witness :
    inventoryGetOne dbScope 2 .admin 2 = .ok recStoreTwo ∧
    transactionGetOne dbScope 2 .admin 1 = .ok txStoreTwo ∧
    supplyRequestPut dbScope 2 3 ⟨some .approved, none⟩ =
      (⟨500, "Internal Server Error"⟩, dbScope) :=
  ⟨(unassigned_admin_single_record_access dbScope 2 adminUnassigned rfl rfl).1 2
      recStoreTwo rfl,
   (unassigned_admin_single_record_access dbScope 2 adminUnassigned rfl rfl).2.1 1
      txStoreTwo rfl,
   (unassigned_admin_single_record_access dbScope 2 adminUnassigned rfl rfl).2.2 3
      reqStoreTwo ⟨some .approved, none⟩ rfl⟩

/-! ## C6 — role guards and the user_type claim -/

/-- Admin row with id 5, for the shared-id state. -/
def adminFive : Admin :=
  { id := 5, username := "a5", email := "a5@x.com", password := "Admin5!aa"
    is_active := true, merchant_id := 1, store_id := none }

/-- Clerk row with id 5, for the shared-id state. -/
def clerkFive : Clerk :=
  { id := 5, username := "c5", email := "c5@x.com", password := "Clerk5!aa"
    is_active := true, admin_id := 5, store_id := none }

/-- State in which an Admin and a Clerk share the numeric id 5. -/
def dbSharedId : DB :=
  { demoDB with admins := [adminFive], clerks := [clerkFive] }

/-- C6: each role guard decides purely from whether a row with the
token's numeric subject id exists in its table (plus `is_superuser` for
the merchant guard); the token's `user_type` claim never changes the
decision.  Consequently, in the state where an Admin and a Clerk share
id 5, a clerk-typed token passes the admin guard and an admin-typed token
passes the clerk guard. -/
theorem guards_decide_by_row_existence :
    (∀ (db : DB) (uid : Nat) (ut ut' : UserType),
      merchantRequiredGuard db uid ut = merchantRequiredGuard db uid ut' ∧
      adminRequiredGuard db uid ut = adminRequiredGuard db uid ut' ∧
      clerkRequiredGuard db uid ut = clerkRequiredGuard db uid ut') ∧
    (∀ (db : DB) (uid : Nat) (ut : UserType),
      (adminRequiredGuard db uid ut = none ↔ (findAdmin db uid).isSome) ∧
      (clerkRequiredGuard db uid ut = none ↔ (findClerk db uid).isSome) ∧
      (merchantRequiredGuard db uid ut = none ↔
        ∃ m, findMerchant db uid = some m ∧ m.is_superuser = true)) ∧
    adminRequiredGuard dbSharedId 5 .clerk = none ∧
    clerkRequiredGuard dbSharedId 5 .admin = none := by
  refine ⟨fun db uid ut ut' => ⟨rfl, rfl, rfl⟩, fun db uid ut => ⟨?_, ?_, ?_⟩, rfl, rfl⟩
  · cases h : findAdmin db uid <;> simp [adminRequiredGuard, h]
  · cases h : findClerk db uid <;> simp [clerkRequiredGuard, h]
  · cases h : findMerchant db uid with
    | none => simp [merchantRequiredGuard, h]
    | some m => cases hs : m.is_superuser <;> simp [merchantRequiredGuard, h, hs]

/-! ## C7 — unassigned admins on listing operations -/

/-- C7: an admin whose `store_id` is unset is denied 403, with the
distinct "Admin not assigned to a store" reason of each endpoint, on
every store-scoped listing — inventory records, transactions, supply
requests and the report query builder — rather than being given an empty
or global listing. -/
theorem unassigned_admin_listings_denied (db : DB) (uid : Nat) (admin : Admin)
    (hadm : findAdmin db uid = some admin) (hun : admin.store_id = none) :
    inventoryListGet db uid .admin =
      .error ⟨403, "Admin not assigned to a store. Cannot view specific inventory records."⟩ ∧
    transactionsListGet db uid .admin =
      .error ⟨403, "Admin not assigned to a store. Cannot view transactions."⟩ ∧
    supplyRequestsListGet db uid .admin =
      .error ⟨403, "Admin not assigned to a store. Cannot view supply requests."⟩ ∧
    reportsAuthorizedScope db uid .admin =
      .error ⟨403, "Admin not assigned to a store. Cannot generate store-specific reports."⟩ := by
  refine ⟨?_, ?_, ?_, ?_⟩ <;>
    simp [inventoryListGet, transactionsListGet, supplyRequestsListGet,
      reportsAuthorizedScope, hadm, hun, optTruthy]

/-- Witness for C7: the unassigned admin of `dbScope` is denied on all
four listings. -/
theorem unassigned_admin_listings_denied_witness :
    inventoryListGet dbScope 2 .admin =
      .error ⟨403, "Admin not assigned to a store. Cannot view specific inventory records."⟩ ∧
    transactionsListGet dbScope 2 .admin =
      .error ⟨403, "Admin not assigned to a store. Cannot view transactions."⟩ ∧
    supplyRequestsListGet dbScope 2 .admin =
      .error ⟨403, "Admin not assigned to a store. Cannot view supply requests."⟩ ∧
    reportsAuthorizedScope dbScope 2 .admin =
      .error ⟨403, "Admin not assigned to a store. Cannot generate store-specific reports."⟩ :=
  unassigned_admin_listings_denied dbScope 2 adminUnassigned rfl rfl

/-! ## C8 — merchant registration -/

/-- Counterexample to C8 as stated: with the demo merchant present, a
fully valid second registration is refused with HTTP 403 — the
`Forbidden` class of the spec's taxonomy, not the claimed `Conflict`
class (409) — though indeed with the "superuser already exists" reason
and without creating an account. -/
theorem merchant_register_conflict_counterexample :
    (merchantRegister demoDB "M2" "m2@x.com" "Strong1!A").1 =
      ⟨403, "Superuser (Merchant) already exists. Registration not allowed."⟩ ∧
    (merchantRegister demoDB "M2" "m2@x.com" "Strong1!A").1.status ≠ 409 ∧
    (merchantRegister demoDB "M2" "m2@x.com" "Strong1!A").2 = demoDB :=
  ⟨rfl, by decide, rfl⟩

/-- The empty relational state. -/
def emptyDB : DB :=
  { merchants := [], admins := [], clerks := [], products := [], stores := []
    inventories := [], transactions := [], supplyRequests := []
    nextInventoryId := 1, nextTransactionId := 1, nextMerchantId := 1, now := 0 }

/-- C8 (amended): at most one Merchant exists — a valid registration
against a state with no Merchant row succeeds and creates the active
superuser, and every registration attempted while any Merchant row exists
is refused with the Forbidden-class (HTTP 403) "superuser already exists"
error and creates no account. -/
theorem merchant_register_singleton (db : DB) (u e p : String)
    (hu : u ≠ "") (he : e ≠ "") (hp : p ≠ "")
    (hve : validateEmail e = true) (hvp : validatePassword p = true) :
    (db.merchants = [] →
      merchantRegister db u e p =
        (⟨201, "Superuser (Merchant) registered successfully"⟩,
         { db with
           merchants := [{ id := db.nextMerchantId, username := u, email := e
                           password := p, is_active := true, is_superuser := true }],
           nextMerchantId := db.nextMerchantId + 1 })) ∧
    (db.merchants ≠ [] →
      merchantRegister db u e p =
        (⟨403, "Superuser (Merchant) already exists. Registration not allowed."⟩, db)) := by
  constructor
  · intro h
    simp [merchantRegister, hu, he, hp, hve, hvp, h]
  · intro h
    cases hm : db.merchants with
    | nil => exact absurd hm h
    | cons x xs => simp [merchantRegister, hu, he, hp, hve, hvp, hm]

/-- Witness for C8: registering the spec scenario's merchant against the
empty state succeeds; repeating any registration against the demo state
(which has a merchant) is refused 403 and changes nothing. -/
theorem merchant_register_singleton_witness :
    merchantRegister emptyDB "M" "m@x.com" "Strong1!A" =
      (⟨201, "Superuser (Merchant) registered successfully"⟩,
       { emptyDB with
         merchants := [{ id := emptyDB.nextMerchantId, username := "M"
                         email := "m@x.com", password := "Strong1!A"
                         is_active := true, is_superuser := true }],
         nextMerchantId := emptyDB.nextMerchantId + 1 }) ∧
    merchantRegister demoDB "M" "m@x.com" "Strong1!A" =
      (⟨403, "Superuser (Merchant) already exists. Registration not allowed."⟩, demoDB) :=
  ⟨(merchant_register_singleton emptyDB "M" "m@x.com" "Strong1!A"
      (by decide) (by decide) (by decide) (by decide) (by decide)).1 rfl,
   (merchant_register_singleton demoDB "M" "m@x.com" "Strong1!A"
      (by decide) (by decide) (by decide) (by decide) (by decide)).2 (by decide)⟩

/-! ## C9 — login lookup order and error distinction -/

/-- C9: login looks the email up as Merchant, then Admin, then Clerk, and
the first row whose email matches fully determines the outcome (later
kinds are never consulted); when no kind matches the result is the
invalid-credentials error; and for the matched account, a failing
password gives `invalidCredentials` while a verifying password on an
inactive account gives the distinct `accountInactive`. -/
theorem login_order_and_error_distinction (db : DB) (email pw : String)
    (he : email ≠ "") (hpw : pw ≠ "") (hve : validateEmail email = true) :
    (∀ m, findMerchantByEmail db email = some m →
      loginPost db email pw = loginFinish m.password m.is_active m.id .merchant pw) ∧
    (findMerchantByEmail db email = none → ∀ a, findAdminByEmail db email = some a →
      loginPost db email pw = loginFinish a.password a.is_active a.id .admin pw) ∧
    (findMerchantByEmail db email = none → findAdminByEmail db email = none →
      ∀ c, findClerkByEmail db email = some c →
      loginPost db email pw = loginFinish c.password c.is_active c.id .clerk pw) ∧
    (findMerchantByEmail db email = none → findAdminByEmail db email = none →
      findClerkByEmail db email = none →
      loginPost db email pw = .invalidCredentials) ∧
    (∀ (stored : String) (active : Bool) (uid : Nat) (ut : UserType),
      (pw ≠ stored → loginFinish stored active uid ut pw = .invalidCredentials) ∧
      (pw = stored → active = false → loginFinish stored active uid ut pw = .accountInactive) ∧
      (pw = stored → active = true → loginFinish stored active uid ut pw = .success uid ut)) ∧
    (LoginResult.accountInactive ≠ LoginResult.invalidCredentials) := by
  refine ⟨fun m hm => ?_, fun hm a ha => ?_, fun hm ha c hc => ?_, fun hm ha hc => ?_,
    fun stored active uid ut => ⟨fun hne => ?_, fun heq hact => ?_, fun heq hact => ?_⟩,
    by simp⟩
  · simp [loginPost, he, hpw, hve, hm]
  · simp [loginPost, he, hpw, hve, hm, ha]
  · simp [loginPost, he, hpw, hve, hm, ha, hc]
  · simp [loginPost, he, hpw, hve, hm, ha, hc]
  · simp [loginFinish, hne]
  · simp [loginFinish, heq, hact]
  · simp [loginFinish, heq, hact]

/-- Merchant row that is inactive but has the right password. -/
def inactiveMerchant : Merchant :=
  { id := 1, username := "M", email := "m@x.com", password := "Strong1!A"
    is_active := false, is_superuser := true }

/-- Demo state whose lone merchant is inactive. -/
def dbInactive : DB :=
  { demoDB with merchants := [inactiveMerchant] }

/-- Witness for C9: with the inactive merchant, the right password is
answered `accountInactive` while a wrong password is answered
`invalidCredentials`; with the active demo merchant, login succeeds. -/
theorem login_order_and_error_distinction_witness :
    loginPost dbInactive "m@x.com" "Strong1!A" = .accountInactive ∧
    loginPost dbInactive "m@x.com" "Wrong1!aa" = .invalidCredentials ∧
    loginPost demoDB "m@x.com" "Strong1!A" = .success 1 .merchant := by
  have h1 := login_order_and_error_distinction dbInactive "m@x.com" "Strong1!A"
    (by decide) (by decide) (by decide)
  have h2 := login_order_and_error_distinction dbInactive "m@x.com" "Wrong1!aa"
    (by decide) (by decide) (by decide)
  have h3 := login_order_and_error_distinction demoDB "m@x.com" "Strong1!A"
    (by decide) (by decide) (by decide)
  refine ⟨?_, ?_, ?_⟩
  · exact (h1.1 inactiveMerchant rfl).trans
      (((h1.2.2.2.2.1 "Strong1!A" false 1 .merchant).2.1) rfl rfl)
  · exact (h2.1 inactiveMerchant rfl).trans
      (((h2.2.2.2.2.1 "Strong1!A" false 1 .merchant).1) (by decide))
  · exact (h3.1 demoMerchant rfl).trans
      (((h3.2.2.2.2.1 "Strong1!A" true 1 .merchant).2.2) rfl rfl)

end MyDuka
